import Mathlib

/-!
Verification development for the PersonaInsight tweet-harvesting core
(`src/server/Core/TweetScraper.py`, class `TwitterScraper`).

The scraper is embedded shallowly:

* Python strings are modelled as `List Char`; the string primitives the
  source uses (`strip`, `lstrip('@')`, `startswith`, the `in` substring
  test, `replace`, slicing) are given direct executable models below.
* The browser driver is modelled as a deterministic oracle (`Page`):
  `feed i` is the snapshot `find_elements` returns on the `i`-th loop
  iteration (`none` models a `StaleElementReferenceException` thrown by
  the snapshot call, which the source swallows with `continue`), and
  `height i` is the `document.body.scrollHeight` value read during that
  iteration.  Pacing sleeps, scroll positions and click actions have no
  observable effect on the collected data and are elided; the one place
  randomness flows into the data (the last-resort tweet id) draws from
  an explicit entropy stream `rand : Nat -> Nat`.
* The `while` loop of `scrape_tweets` is fuel-indexed (`scrape_loop`);
  each iteration increments `scroll_count`, and the source bounds
  `scroll_count` by `max_scroll_attempts = 50`, so fuel `50` is exact.
-/

namespace PersonaInsight

/-- The six ASCII characters Python's `str.strip()` removes. -/
def isPySpace (c : Char) : Bool :=
  c == ' ' || c == '\t' || c == '\n' || c == '\r' ||
  c == Char.ofNat 11 || c == Char.ofNat 12

/-- Python `s.lstrip()` restricted to ASCII whitespace. -/
def pyLStrip (s : List Char) : List Char := s.dropWhile isPySpace

/-- Python `s.rstrip()` restricted to ASCII whitespace. -/
def pyRStrip (s : List Char) : List Char :=
  (s.reverse.dropWhile isPySpace).reverse

/-- Python `s.strip()` restricted to ASCII whitespace. -/
def pyStrip (s : List Char) : List Char := pyRStrip (pyLStrip s)

/-- Python `s.lstrip(c)` for a single strip character. -/
def pyLStripChar (c : Char) (s : List Char) : List Char :=
  s.dropWhile (fun d => d == c)

/-- Python `s.startswith(p)`: `pyStartsWith p s` tests whether `p` is a
prefix of `s`. -/
def pyStartsWith : List Char → List Char → Bool
  | [], _ => true
  | _ :: _, [] => false
  | a :: ps, b :: ss => a == b && pyStartsWith ps ss

/-- Python `needle in s` (substring containment). -/
def pyContains (needle : List Char) : List Char → Bool
  | [] => needle.isEmpty
  | c :: rest => pyStartsWith needle (c :: rest) || pyContains needle rest

/-- Python `s.replace(needle, repl)` for a non-empty needle: replace
every occurrence, scanning left to right without overlap.  (The source
only ever calls `replace('twitter.com', 'x.com')`.) -/
def pyReplace (needle repl : List Char) : List Char → List Char
  | [] => []
  | c :: rest =>
    if needle ≠ [] ∧ pyStartsWith needle (c :: rest) = true then
      repl ++ pyReplace needle repl (rest.drop (needle.length - 1))
    else
      c :: pyReplace needle repl rest
termination_by s => s.length
decreasing_by
  · simp only [List.length_drop, List.length_cons]
    omega
  · simp only [List.length_cons]
    omega

/-- Python `s.split(sep)[0]` for a single-character separator. -/
def pySplitHead (sep : Char) (s : List Char) : List Char :=
  s.takeWhile (fun d => !(d == sep))

/-- `mismatchWithin n t = true` when comparing `n` against `t` hits a
character mismatch before either side runs out, so `n` cannot be a
prefix of `t ++ q` for any continuation `q`. -/
def mismatchWithin : List Char → List Char → Bool
  | [], _ => false
  | _ :: _, [] => false
  | a :: ns, b :: ts => if a == b then mismatchWithin ns ts else true

/-- Every non-empty suffix of the scanned block mismatches the needle
within the block itself: the needle cannot start anywhere inside the
block, whatever follows it. -/
def cleanForReplace (n : List Char) : List Char → Bool
  | [] => true
  | c :: rest => mismatchWithin n (c :: rest) && cleanForReplace n rest

/-! ### ProfileResolver: `extract_username_from_url` and `get_profile_url`

`extract_username_from_url` (source lines 41-55) runs
`re.search(r'(?:https?:\/\/)?(?:www\.)?(?:twitter\.com|x\.com)\/([^\/?\s]+)', url)`
and, on a match, returns `group(1).split('?')[0]`; otherwise the input
unchanged.  At any fixed start position at most one way of reading the
optional scheme / `www.` / domain alternatives can match (the twelve
concrete literals below are pairwise prefix-incomparable), so the
regex's backtracking search is equivalent to: at each start position,
find the unique matching literal, then greedily read a non-empty run of
characters outside `/ ? whitespace` as the capture group.  The literal
list is ordered exactly as the regex tries its alternatives. -/

/-- The twelve concrete expansions of
`(?:https?:\/\/)?(?:www\.)?(?:twitter\.com|x\.com)\/`. -/
def usernamePatterns : List (List Char) :=
  ["https://www.twitter.com/".toList, "https://www.x.com/".toList,
   "https://twitter.com/".toList, "https://x.com/".toList,
   "http://www.twitter.com/".toList, "http://www.x.com/".toList,
   "http://twitter.com/".toList, "http://x.com/".toList,
   "www.twitter.com/".toList, "www.x.com/".toList,
   "twitter.com/".toList, "x.com/".toList]

/-- A character the capture class `[^\/?\s]` accepts. -/
def goodRunChar (c : Char) : Bool := !(c == '/' || c == '?' || isPySpace c)

/-- Attempt the regex at one start position. -/
def matchUserAt (s : List Char) : Option (List Char) :=
  match usernamePatterns.find? (fun c => pyStartsWith c s) with
  | none => none
  | some c =>
    let run := (s.drop c.length).takeWhile goodRunChar
    if run = [] then none else some run

/-- `re.search`: try every start position, left to right. -/
def reSearchUsername : List Char → Option (List Char)
  | [] => none
  | c :: rest =>
    match matchUserAt (c :: rest) with
    | some g => some g
    | none => reSearchUsername rest

/-- `TwitterScraper.extract_username_from_url` (source lines 41-55). -/
def extract_username_from_url (url : List Char) : List Char :=
  match reSearchUsername url with
  | some g => pySplitHead '?' g
  | none => url

/-- `TwitterScraper.get_profile_url` (source lines 57-95), branch for
branch, in source order. -/
def get_profile_url (identifier : List Char) (is_url : Bool) : List Char :=
  if is_url then
    let url := pyStrip identifier
    if pyStartsWith "http://".toList url = true ∨
       pyStartsWith "https://".toList url = true then
      pyReplace "twitter.com".toList "x.com".toList url
    else if pyStartsWith "x.com/".toList url = true ∨
            pyStartsWith "twitter.com/".toList url = true then
      "https://".toList ++ pyReplace "twitter.com".toList "x.com".toList url
    else if pyContains "x.com/".toList url = true ∨
            pyContains "twitter.com/".toList url = true then
      if ¬ pyStartsWith "https://".toList url = true ∧
         ¬ pyStartsWith "http://".toList url = true then
        "https://".toList ++ pyReplace "twitter.com".toList "x.com".toList url
      else
        pyReplace "twitter.com".toList "x.com".toList url
    else
      "https://x.com/".toList ++ extract_username_from_url identifier
  else
    "https://x.com/".toList ++ pyLStripChar '@' (pyStrip identifier)

/-! ### The harvest loop: `scrape_tweets` (source lines 147-336) -/

/-- A rendered tweet element as the driver oracle presents it.
`sid` is the numeric post id extracted from a `/status/` link when such
a link is present (`get_tweet_id`, lines 107-116); `text` is the
space-joined text of the `tweetText` parts (used both as the fallback
identity, lines 118-126, and as the collected `full_text`, lines
234-235). -/
structure Tweet where
  sid : Option (List Char)
  text : List Char
deriving DecidableEq

/-- The deterministic driver oracle for one profile page.
`feed i` is what `find_elements('//article[@data-testid="tweet"]')`
returns on loop iteration `i` (the value of `scroll_count` during that
iteration); `none` models a `StaleElementReferenceException` raised by
the snapshot, which the source answers with `continue` (lines 249-254).
`height i` is the `document.body.scrollHeight` read during iteration
`i` (`height 0` is the read before the loop, line 195). -/
structure Page where
  isPrivate : Bool
  hasInitialTweet : Bool
  feed : Nat → Option (List Tweet)
  height : Nat → Nat

/-- The mutable session state of the scroll-and-collect loop, one field
per Python local (lines 181-201). `entropy` indexes the explicit
randomness stream used by the last-resort tweet id; `done` models the
`break` statements. -/
structure HarvestState where
  tweets : List (List Char)
  seen_tweets : List (List Char)
  no_new_tweets_count : Nat
  consecutive_failed_scrolls : Nat
  scroll_count : Nat
  last_height : Nat
  entropy : Nat
  done : Bool
deriving DecidableEq

/-- `max_no_new_tweets = 5` (source line 198). -/
def max_no_new_tweets : Nat := 5

/-- `max_consecutive_failures = 8` (source line 199). -/
def max_consecutive_failures : Nat := 8

/-- `max_scroll_attempts = 50` (source line 200). -/
def max_scroll_attempts : Nat := 50

/-- `TwitterScraper.get_tweet_id` (source lines 97-129): a `/status/`
link id when present, else the first 50 characters of the joined text
when non-empty, else a fresh low-confidence key drawn from the entropy
stream.  Returns the id and the advanced entropy index. -/
def get_tweet_id (rand : Nat → Nat) (ent : Nat) (t : Tweet) :
    List Char × Nat :=
  match t.sid with
  | some i => (i, ent)
  | none =>
    if t.text ≠ [] then (t.text.take 50, ent)
    else ("tweet_".toList ++ (toString (rand ent)).toList, ent + 1)

/-- The counter update step (source lines 259-268): a fruitless
iteration increments both streak counters, a productive one resets
both to zero. -/
def updateCounters (new_tweets_count no_new consec : Nat) : Nat × Nat :=
  if new_tweets_count = 0 then (no_new + 1, consec + 1) else (0, 0)

/-- The body of `for tweet in tweet_elements` (source lines 221-248):
resolve the identity, skip if already seen, otherwise mark seen and
append the text when it is non-empty; once the target is reached,
`break` (modelled by `done`, which makes the remaining elements
no-ops). -/
def processTweet (rand : Nat → Nat) (num_tweets : Nat)
    (s : HarvestState) (t : Tweet) : HarvestState :=
  if s.done then s
  else
    let idEnt := get_tweet_id rand s.entropy t
    if idEnt.1 ∈ s.seen_tweets then { s with entropy := idEnt.2 }
    else
      let s1 := { s with seen_tweets := idEnt.1 :: s.seen_tweets,
                         entropy := idEnt.2 }
      if t.text ≠ [] then
        let s2 := { s1 with tweets := s1.tweets ++ [t.text] }
        if s2.tweets.length ≥ num_tweets then { s2 with done := true } else s2
      else s1

/-- The whole `for` loop over one snapshot. -/
def processTweets (rand : Nat → Nat) (num_tweets : Nat)
    (s : HarvestState) (elems : List Tweet) : HarvestState :=
  elems.foldl (processTweet rand num_tweets) s

/-- The tail of one loop iteration after a successful snapshot has
been processed (source lines 256-327): update the streak counters from
`new_tweets_count = len(tweets) - tweets_before`; `break` when the
target is reached (line 271) or when too many consecutive scrolls
failed (line 275); otherwise run the scroll strategy — the alternative
strategy, triggered by `no_new_tweets_count >= max_no_new_tweets`,
resets that counter (line 313), while scroll actions themselves touch
no session data — and record the freshly read page height (lines
322-327). -/
def scrape_step_post (page : Page) (num_tweets tweets_before iter : Nat)
    (sp : HarvestState) : HarvestState :=
  let u := updateCounters (sp.tweets.length - tweets_before)
    sp.no_new_tweets_count sp.consecutive_failed_scrolls
  let s := { sp with no_new_tweets_count := u.1,
                     consecutive_failed_scrolls := u.2 }
  if s.tweets.length ≥ num_tweets then { s with done := true }
  else if s.consecutive_failed_scrolls ≥ max_consecutive_failures then
    { s with done := true }
  else
    let s := if s.no_new_tweets_count ≥ max_no_new_tweets then
      { s with no_new_tweets_count := 0 } else s
    { s with last_height := page.height iter }

/-- One iteration of the `while` loop (source lines 208-327):
increment `scroll_count`; take the snapshot (a stale snapshot skips
straight to the next iteration, source lines 249-254); process it;
then run the counter/break/strategy tail. -/
def scrape_step (page : Page) (rand : Nat → Nat) (num_tweets : Nat)
    (s : HarvestState) : HarvestState :=
  let s := { s with scroll_count := s.scroll_count + 1 }
  match page.feed s.scroll_count with
  | none => s
  | some elems =>
    scrape_step_post page num_tweets s.tweets.length s.scroll_count
      (processTweets rand num_tweets s elems)

/-- The fuel-indexed `while len(tweets) < num_tweets and scroll_count <
max_scroll_attempts` loop. -/
def scrape_loop (page : Page) (rand : Nat → Nat) (num_tweets : Nat) :
    Nat → HarvestState → HarvestState
  | 0, s => s
  | fuel + 1, s =>
    if s.done = false ∧ s.tweets.length < num_tweets ∧
       s.scroll_count < max_scroll_attempts then
      scrape_loop page rand num_tweets fuel (scrape_step page rand num_tweets s)
    else s

/-- The session state at call start (lines 181-201): empty collection,
freshly reset `seen_tweets`, zeroed counters, initial page height. -/
def initState (page : Page) : HarvestState :=
  { tweets := [], seen_tweets := [], no_new_tweets_count := 0,
    consecutive_failed_scrolls := 0, scroll_count := 0,
    last_height := page.height 0, entropy := 0, done := false }

/-- The observable outcome of one `scrape_tweets` call: the returned
value (`none` is the Private sentinel), the number of loop iterations
performed, and the transient collection size before truncation. -/
structure ScrapeResult where
  result : Option (List (List Char))
  scrolls : Nat
  collected : Nat
deriving DecidableEq

/-- The body of `TwitterScraper.scrape_tweets` after `driver.get`
returned (source lines 166-336): return `None` when the privacy marker
is observed (lines 169-179); return `[]` when no initial tweet renders
within the timeout (lines 184-192) — the accessible-with-zero-content
case; otherwise run the scroll loop and return `tweets[:num_tweets]`.
Since every iteration increments `scroll_count` and the guard requires
`scroll_count < 50`, fuel `50` runs the loop to completion.
The navigation call itself (line 164) can instead raise; that path is
modelled by `scrape_tweets_call` below. -/
def scrape_tweets_run (page : Page) (rand : Nat → Nat) (num_tweets : Nat) :
    ScrapeResult :=
  if page.isPrivate = true then ⟨none, 0, 0⟩
  else if page.hasInitialTweet = false then ⟨some [], 0, 0⟩
  else
    let s := scrape_loop page rand num_tweets max_scroll_attempts (initState page)
    ⟨some (s.tweets.take num_tweets), s.scroll_count, s.tweets.length⟩

/-- The value `scrape_tweets` returns to its caller. -/
def scrape_tweets (page : Page) (rand : Nat → Nat) (num_tweets : Nat) :
    Option (List (List Char)) :=
  (scrape_tweets_run page rand num_tweets).result

/-! ### `scrape_profile_info` (source lines 338-412) -/

/-- Driver oracle for a profile-info page after `driver.get` returned.
`primaryColumnLoads` is whether the wait for `primaryColumn` succeeds
(a navigation that loaded nothing leaves it `false`); each optional
field is the text of the corresponding element when it is found. -/
structure ProfilePage where
  primaryColumnLoads : Bool
  privateMarker : Bool
  displayName : Option (List Char)
  bio : Option (List Char)
  followingCount : Option (List Char)
  followersCount : Option (List Char)

/-- The `profile_data` dictionary (source lines 357-367). `location`,
`website` and `join_date` are initialised empty and never filled in by
the source. -/
structure ProfileData where
  username : List Char
  display_name : List Char
  bio : List Char
  location : List Char
  website : List Char
  join_date : List Char
  following_count : List Char
  followers_count : List Char
  is_private : Bool
deriving DecidableEq

/-- The body of `TwitterScraper.scrape_profile_info` after
`driver.get` returned (source lines 352-412): when the wait for the
primary column times out the call returns `None` (lines 408-412);
otherwise each field is filled best-effort, missing elements leaving
the initial value.  The navigation call itself (line 350) sits outside
the `try`; that path is modelled by `scrape_profile_info_call`
below. -/
def scrape_profile_info (identifier : List Char) (is_url : Bool)
    (page : ProfilePage) : Option ProfileData :=
  if page.primaryColumnLoads = false then none
  else
    some { username := if is_url then extract_username_from_url identifier
                       else pyLStripChar '@' (pyStrip identifier),
           display_name := page.displayName.getD [],
           bio := page.bio.getD [],
           location := [], website := [], join_date := [],
           following_count := page.followingCount.getD [],
           followers_count := page.followersCount.getD [],
           is_private := page.privateMarker }

/-! ### The navigation call and its exception channel

`driver.get(url)` is the one driver call the scrapers make before any
exception handler is installed: in `scrape_tweets` it sits at source
line 164 with no handler anywhere in the method, and in
`scrape_profile_info` at line 350, outside the method's `try`.
Selenium's `get` raises `TimeoutException` when the page load times
out and `WebDriverException` when navigation fails outright, so on
either outcome the exception propagates uncaught out of the scraper
call (only `main`, line 505, eventually catches it).  The wrappers
below therefore run the respective method body only when navigation
returned, and re-raise otherwise. -/

/-- An exception raised by `driver.get`: a page-load timeout
(`TimeoutException`) or a failed navigation (`WebDriverException`). -/
inductive DriverError where
  | timeout
  | webdriver
deriving DecidableEq

/-- The outcome of `driver.get`: either it raises, or it returns and
the rest of the page oracle (`α`) applies. -/
inductive NavOutcome (α : Type) where
  | raises (e : DriverError)
  | loaded (page : α)

/-- The full `scrape_tweets` call including navigation (source lines
147-336): `driver.get` at line 164 has no handler, so a raising
navigation propagates; otherwise the method body runs. -/
def scrape_tweets_call (nav : NavOutcome Page) (rand : Nat → Nat)
    (num_tweets : Nat) : Except DriverError ScrapeResult :=
  match nav with
  | .raises e => .error e
  | .loaded page => .ok (scrape_tweets_run page rand num_tweets)

/-- The full `scrape_profile_info` call including navigation (source
lines 338-412): `driver.get` at line 350 sits outside the `try`, so a
raising navigation propagates; otherwise the method body runs. -/
def scrape_profile_info_call (identifier : List Char) (is_url : Bool)
    (nav : NavOutcome ProfilePage) : Except DriverError (Option ProfileData) :=
  match nav with
  | .raises e => .error e
  | .loaded page => .ok (scrape_profile_info identifier is_url page)

/-! ### Concrete driver oracles used as test inputs -/

/-- A fixed entropy stream. -/
def rand0 : Nat → Nat := fun _ => 0

/-- Accessible page whose snapshots are always empty: every iteration
stalls. -/
def pageStall : Page :=
  { isPrivate := false, hasInitialTweet := true,
    feed := fun _ => some [], height := fun _ => 0 }

/-- Accessible page with one item whose extracted text is empty. -/
def pageEmptyText : Page :=
  { isPrivate := false, hasInitialTweet := true,
    feed := fun _ => some [⟨some "1".toList, []⟩], height := fun _ => 0 }

/-- Accessible page: a stall on iteration 1, then one fresh item on
iteration 2, then stalls. -/
def pageLateItem : Page :=
  { isPrivate := false, hasInitialTweet := true,
    feed := fun i => if i = 2 then some [⟨some "1".toList, "hi".toList⟩]
                     else some [],
    height := fun _ => 0 }

/-- Accessible page re-rendering the same stable item with non-empty
text on every iteration. -/
def pageOneItem : Page :=
  { isPrivate := false, hasInitialTweet := true,
    feed := fun _ => some [⟨some "1".toList, "a".toList⟩],
    height := fun _ => 0 }

/-- Accessible page whose single stable item first renders with empty
text, and with text "hello" from iteration 2 on. -/
def pageTextAppearsLate : Page :=
  { isPrivate := false, hasInitialTweet := true,
    feed := fun i => if i = 1 then some [⟨some "1".toList, []⟩]
                     else some [⟨some "1".toList, "hello".toList⟩],
    height := fun _ => 0 }

/-- A private profile. -/
def pagePrivate : Page :=
  { isPrivate := true, hasInitialTweet := false,
    feed := fun _ => some [], height := fun _ => 0 }

/-- A navigation that loads nothing: no privacy marker and no tweet
marker ever render. -/
def pageNoMarkers : Page :=
  { isPrivate := false, hasInitialTweet := false,
    feed := fun _ => none, height := fun _ => 0 }

/-- An endless feed of distinct items: iteration `i` additionally
renders the fresh item `i`. -/
def pageUniqueFeed : Page :=
  { isPrivate := false, hasInitialTweet := true,
    feed := fun i => some [⟨some (toString i).toList, ("t".toList ++ (toString i).toList)⟩],
    height := fun _ => 0 }

/-- The dedup bookkeeping kept by every per-element step: the
collection is no longer than the seen set, and the seen set holds no
identity twice. -/
def lenInv (s : HarvestState) : Prop :=
  s.tweets.length ≤ s.seen_tweets.length ∧ s.seen_tweets.Nodup

/-- The stall-counter bookkeeping: `consecutive_failed_scrolls` never
exceeds `max_consecutive_failures = 8`, and the instant it reaches 8
the loop has broken (`done`). -/
def consecInv (s : HarvestState) : Prop :=
  s.consecutive_failed_scrolls ≤ 8 ∧
  (8 ≤ s.consecutive_failed_scrolls → s.done = true)

/-- Both counter invariants together with the 50-iteration scroll
budget. -/
def budgetInv (s : HarvestState) : Prop :=
  consecInv s ∧ s.scroll_count ≤ max_scroll_attempts

/-- When every rendered item carries non-empty text, the collection and
the seen set grow in lockstep. -/
def eqInv (s : HarvestState) : Prop :=
  s.tweets.length = s.seen_tweets.length

/-! ## Theorems -/

@[simp] theorem pyStartsWith_nil (s : List Char) : pyStartsWith [] s = true := by
  cases s <;> rfl

@[simp] theorem pyStartsWith_cons_nil (a : Char) (ps : List Char) :
    pyStartsWith (a :: ps) [] = false := rfl

@[simp] theorem pyStartsWith_cons_cons (a b : Char) (ps ss : List Char) :
    pyStartsWith (a :: ps) (b :: ss) = ((a == b) && pyStartsWith ps ss) := rfl

/-- A prefix of `s` stays a prefix after appending to `s`. -/
theorem pyStartsWith_append_of (n t q : List Char)
    (h : pyStartsWith n t = true) : pyStartsWith n (t ++ q) = true := by
  induction n generalizing t with
  | nil => simp
  | cons a ps ih =>
    cases t with
    | nil => simp at h
    | cons b ss =>
      simp only [pyStartsWith_cons_cons, Bool.and_eq_true] at h
      simp only [List.cons_append, pyStartsWith_cons_cons, Bool.and_eq_true]
      exact ⟨h.1, ih ss h.2⟩

/-- `pyStartsWith p s` produces the decomposition `s = p ++ r`. -/
theorem pyStartsWith_decomp (p s : List Char) (h : pyStartsWith p s = true) :
    ∃ r, s = p ++ r := by
  induction p generalizing s with
  | nil => exact ⟨s, rfl⟩
  | cons a ps ih =>
    cases s with
    | nil => simp at h
    | cons b ss =>
      simp only [pyStartsWith_cons_cons, Bool.and_eq_true, beq_iff_eq] at h
      obtain ⟨r, hr⟩ := ih ss h.2
      exact ⟨r, by simp [h.1, hr]⟩

theorem pyStartsWith_self_append (p q : List Char) :
    pyStartsWith p (p ++ q) = true := by
  induction p with
  | nil => simp
  | cons a ps ih => simp [ih]

theorem pyContains_of_startsWith (n s : List Char)
    (h : pyStartsWith n s = true) : pyContains n s = true := by
  cases s with
  | nil =>
    cases n with
    | nil => rfl
    | cons a ps => simp at h
  | cons c rest => simp [pyContains, h]

theorem pyContains_cons_of (n : List Char) (c : Char) (rest : List Char)
    (h : pyContains n rest = true) : pyContains n (c :: rest) = true := by
  simp [pyContains, h]

/-- If `pre ++ n` is a prefix of `s` then `n` occurs inside `s`. -/
theorem pyContains_of_startsWith_append (pre n s : List Char)
    (h : pyStartsWith (pre ++ n) s = true) : pyContains n s = true := by
  induction pre generalizing s with
  | nil => exact pyContains_of_startsWith n s h
  | cons a ps ih =>
    cases s with
    | nil => simp at h
    | cons b ss =>
      simp only [List.cons_append, pyStartsWith_cons_cons, Bool.and_eq_true] at h
      exact pyContains_cons_of n b ss (ih ss h.2)

theorem pyContains_append_left (n a b : List Char)
    (h : pyContains n a = true) : pyContains n (a ++ b) = true := by
  induction a with
  | nil =>
    simp [pyContains, List.isEmpty_iff] at h
    subst h
    cases b with
    | nil => rfl
    | cons c rest => simp [pyContains]
  | cons c rest ih =>
    simp only [pyContains, Bool.or_eq_true] at h
    rcases h with h | h
    · exact pyContains_of_startsWith n _ (pyStartsWith_append_of n (c :: rest) b h)
    · exact pyContains_cons_of n c (rest ++ b) (ih h)

theorem pyContains_of_lstrip (n s : List Char)
    (h : pyContains n (pyLStrip s) = true) : pyContains n s = true := by
  induction s with
  | nil => simpa [pyLStrip] using h
  | cons c rest ih =>
    by_cases hc : isPySpace c = true
    · simp only [pyLStrip, List.dropWhile_cons, hc, if_true] at h
      exact pyContains_cons_of n c rest (ih h)
    · simp only [pyLStrip, List.dropWhile_cons, hc] at h
      simpa using h

theorem pyContains_of_rstrip (n s : List Char)
    (h : pyContains n (pyRStrip s) = true) : pyContains n s = true := by
  have hdec : s = pyRStrip s ++ (s.reverse.takeWhile isPySpace).reverse := by
    have := List.takeWhile_append_dropWhile (p := isPySpace) (l := s.reverse)
    calc s = s.reverse.reverse := by simp
    _ = (s.reverse.takeWhile isPySpace ++ s.reverse.dropWhile isPySpace).reverse := by
          rw [this]
    _ = pyRStrip s ++ (s.reverse.takeWhile isPySpace).reverse := by
          rw [List.reverse_append]; rfl
  calc pyContains n s
      = pyContains n (pyRStrip s ++ (s.reverse.takeWhile isPySpace).reverse) := by
        rw [← hdec]
    _ = true := pyContains_append_left n _ _ h

theorem pyContains_of_strip (n s : List Char)
    (h : pyContains n (pyStrip s) = true) : pyContains n s = true :=
  pyContains_of_lstrip n s (pyContains_of_rstrip n (pyLStrip s) h)

theorem not_startsWith_of_mismatchWithin (n t q : List Char)
    (h : mismatchWithin n t = true) : pyStartsWith n (t ++ q) = false := by
  induction n generalizing t with
  | nil => simp [mismatchWithin] at h
  | cons a ns ih =>
    cases t with
    | nil => simp [mismatchWithin] at h
    | cons b ts =>
      simp only [mismatchWithin] at h
      by_cases hab : (a == b) = true
      · simp only [hab, if_true] at h
        simp [hab, ih ts h]
      · simp only [List.cons_append, pyStartsWith_cons_cons]
        simp [Bool.eq_false_iff.mpr hab]

theorem pyReplace_cons_no_match (n r : List Char) (c : Char) (rest : List Char)
    (h : pyStartsWith n (c :: rest) = false) :
    pyReplace n r (c :: rest) = c :: pyReplace n r rest := by
  rw [pyReplace]
  simp [h]

theorem pyReplace_cons_match (n r : List Char) (c : Char) (rest : List Char)
    (hne : n ≠ []) (h : pyStartsWith n (c :: rest) = true) :
    pyReplace n r (c :: rest) = r ++ pyReplace n r (rest.drop (n.length - 1)) := by
  rw [pyReplace]
  simp [hne, h]

/-- `replace` slides over a block in which the needle never starts. -/
theorem pyReplace_append_clean (n r A q : List Char)
    (h : cleanForReplace n A = true) :
    pyReplace n r (A ++ q) = A ++ pyReplace n r q := by
  induction A with
  | nil => simp
  | cons c rest ih =>
    simp only [cleanForReplace, Bool.and_eq_true] at h
    have hns : pyStartsWith n ((c :: rest) ++ q) = false :=
      not_startsWith_of_mismatchWithin n (c :: rest) q h.1
    simp only [List.cons_append] at hns
    rw [List.cons_append, pyReplace_cons_no_match n r c (rest ++ q) hns, ih h.2,
      List.cons_append]

example :
    (scrape_loop pageStall rand0 5 50 (initState pageStall)).scroll_count = 8 ∧
    (scrape_loop pageStall rand0 5 50 (initState pageStall)).consecutive_failed_scrolls = 8 ∧
    (scrape_loop pageStall rand0 5 50 (initState pageStall)).done = true := by
  decide

example : scrape_tweets pageStall rand0 5 = some [] := by decide

example :
    scrape_tweets pageUniqueFeed rand0 3 =
      some ["t1".toList, "t2".toList, "t3".toList] ∧
    (scrape_tweets_run pageUniqueFeed rand0 3).scrolls = 3 := by
  decide

example :
    (scrape_loop pageEmptyText rand0 5 1 (initState pageEmptyText)).seen_tweets.length = 1 ∧
    (scrape_loop pageEmptyText rand0 5 1 (initState pageEmptyText)).tweets.length = 0 := by
  decide

example : scrape_tweets pageOneItem rand0 5 = some ["a".toList] := by decide

/-! ### Invariant lemmas about the loop -/

theorem processTweet_counters (rand : Nat → Nat) (n : Nat)
    (s : HarvestState) (t : Tweet) :
    (processTweet rand n s t).no_new_tweets_count = s.no_new_tweets_count ∧
    (processTweet rand n s t).consecutive_failed_scrolls =
      s.consecutive_failed_scrolls ∧
    (processTweet rand n s t).scroll_count = s.scroll_count ∧
    (processTweet rand n s t).last_height = s.last_height := by
  unfold processTweet
  by_cases hd : s.done = true
  · simp [hd]
  · by_cases hmem : (get_tweet_id rand s.entropy t).1 ∈ s.seen_tweets
    · simp [hd, hmem]
    · by_cases ht : t.text = []
      · simp [hd, hmem, ht]
      · by_cases htgt : n ≤ s.tweets.length + 1
        · simp [hd, hmem, ht, htgt]
        · simp [hd, hmem, ht, htgt]

theorem processTweets_counters (rand : Nat → Nat) (n : Nat)
    (elems : List Tweet) (s : HarvestState) :
    (processTweets rand n s elems).no_new_tweets_count = s.no_new_tweets_count ∧
    (processTweets rand n s elems).consecutive_failed_scrolls =
      s.consecutive_failed_scrolls ∧
    (processTweets rand n s elems).scroll_count = s.scroll_count ∧
    (processTweets rand n s elems).last_height = s.last_height := by
  induction elems generalizing s with
  | nil => exact ⟨rfl, rfl, rfl, rfl⟩
  | cons t ts ih =>
    have h1 := processTweet_counters rand n s t
    have h2 := ih (processTweet rand n s t)
    simp only [processTweets, List.foldl_cons] at h2 ⊢
    exact ⟨h2.1.trans h1.1, h2.2.1.trans h1.2.1, h2.2.2.1.trans h1.2.2.1,
      h2.2.2.2.trans h1.2.2.2⟩

theorem processTweet_tweets_mono (rand : Nat → Nat) (n : Nat)
    (s : HarvestState) (t : Tweet) :
    s.tweets.length ≤ (processTweet rand n s t).tweets.length := by
  unfold processTweet
  by_cases hd : s.done = true
  · simp [hd]
  · by_cases hmem : (get_tweet_id rand s.entropy t).1 ∈ s.seen_tweets
    · simp [hd, hmem]
    · by_cases ht : t.text = []
      · simp [hd, hmem, ht]
      · by_cases htgt : n ≤ s.tweets.length + 1
        · simp [hd, hmem, ht, htgt]
        · simp [hd, hmem, ht, htgt]

theorem processTweets_tweets_mono (rand : Nat → Nat) (n : Nat)
    (elems : List Tweet) (s : HarvestState) :
    s.tweets.length ≤ (processTweets rand n s elems).tweets.length := by
  induction elems generalizing s with
  | nil => exact Nat.le_refl _
  | cons t ts ih =>
    simp only [processTweets, List.foldl_cons] at ih ⊢
    exact (processTweet_tweets_mono rand n s t).trans (ih (processTweet rand n s t))

theorem processTweet_lenInv (rand : Nat → Nat) (n : Nat)
    (s : HarvestState) (t : Tweet) (h : lenInv s) :
    lenInv (processTweet rand n s t) := by
  obtain ⟨h1, h2⟩ := h
  unfold processTweet lenInv
  by_cases hd : s.done = true
  · simp only [hd, if_true]
    exact ⟨h1, h2⟩
  · by_cases hmem : (get_tweet_id rand s.entropy t).1 ∈ s.seen_tweets
    · simp [hd, hmem]
      exact ⟨h1, h2⟩
    · by_cases ht : t.text = []
      · simp [hd, hmem, ht]
        exact ⟨by omega, h2⟩
      · by_cases htgt : n ≤ s.tweets.length + 1
        · simp [hd, hmem, ht, htgt]
          exact ⟨h1, h2⟩
        · simp [hd, hmem, ht, htgt]
          exact ⟨h1, h2⟩

theorem processTweets_lenInv (rand : Nat → Nat) (n : Nat)
    (elems : List Tweet) (s : HarvestState) (h : lenInv s) :
    lenInv (processTweets rand n s elems) := by
  induction elems generalizing s with
  | nil => exact h
  | cons t ts ih =>
    simp only [processTweets, List.foldl_cons] at ih ⊢
    exact ih (processTweet rand n s t) (processTweet_lenInv rand n s t h)

/-- A stale snapshot leaves everything but `scroll_count` unchanged. -/
theorem scrape_step_eq_none (page : Page) (rand : Nat → Nat) (n : Nat)
    (s : HarvestState) (hf : page.feed (s.scroll_count + 1) = none) :
    scrape_step page rand n s = { s with scroll_count := s.scroll_count + 1 } := by
  unfold scrape_step
  simp only [hf]

/-- The iteration tail touches neither the collection nor the seen set
nor `scroll_count`. -/
theorem scrape_step_post_frame (page : Page) (n tb iter : Nat)
    (sp : HarvestState) :
    (scrape_step_post page n tb iter sp).tweets = sp.tweets ∧
    (scrape_step_post page n tb iter sp).seen_tweets = sp.seen_tweets ∧
    (scrape_step_post page n tb iter sp).scroll_count = sp.scroll_count := by
  unfold scrape_step_post
  by_cases h1 : sp.tweets.length ≥ n
  · simp [h1]
  · by_cases h2 : (updateCounters (sp.tweets.length - tb) sp.no_new_tweets_count
        sp.consecutive_failed_scrolls).2 ≥ max_consecutive_failures
    · simp [h1, h2]
    · by_cases h3 : (updateCounters (sp.tweets.length - tb) sp.no_new_tweets_count
          sp.consecutive_failed_scrolls).1 ≥ max_no_new_tweets
      · simp [h1, h2, h3]
      · simp [h1, h2, h3]

/-- After a successful snapshot, the collection and the seen set of the
iteration's result are exactly those produced by processing the
snapshot; the later counter, break and height updates do not touch
them. -/
theorem scrape_step_tweets_seen (page : Page) (rand : Nat → Nat) (n : Nat)
    (s : HarvestState) (elems : List Tweet)
    (hf : page.feed (s.scroll_count + 1) = some elems) :
    (scrape_step page rand n s).tweets =
      (processTweets rand n { s with scroll_count := s.scroll_count + 1 } elems).tweets ∧
    (scrape_step page rand n s).seen_tweets =
      (processTweets rand n { s with scroll_count := s.scroll_count + 1 } elems).seen_tweets := by
  unfold scrape_step
  simp only [hf]
  exact ⟨(scrape_step_post_frame page n _ _ _).1,
    (scrape_step_post_frame page n _ _ _).2.1⟩

/-- Every iteration advances `scroll_count` by exactly one, whether or
not the snapshot was stale. -/
theorem scrape_step_scroll (page : Page) (rand : Nat → Nat) (n : Nat)
    (s : HarvestState) :
    (scrape_step page rand n s).scroll_count = s.scroll_count + 1 := by
  cases hf : page.feed (s.scroll_count + 1) with
  | none => rw [scrape_step_eq_none page rand n s hf]
  | some elems =>
    unfold scrape_step
    simp only [hf]
    rw [(scrape_step_post_frame page n _ _ _).2.2]
    rw [(processTweets_counters rand n elems _).2.2.1]

theorem scrape_step_lenInv (page : Page) (rand : Nat → Nat) (n : Nat)
    (s : HarvestState) (h : lenInv s) :
    lenInv (scrape_step page rand n s) := by
  cases hf : page.feed (s.scroll_count + 1) with
  | none =>
    rw [scrape_step_eq_none page rand n s hf]
    exact h
  | some elems =>
    have hts := scrape_step_tweets_seen page rand n s elems hf
    have hbump : lenInv { s with scroll_count := s.scroll_count + 1 } := h
    have hp := processTweets_lenInv rand n elems
      { s with scroll_count := s.scroll_count + 1 } hbump
    exact ⟨hts.1 ▸ hts.2 ▸ hp.1, hts.2 ▸ hp.2⟩

theorem scrape_loop_lenInv (page : Page) (rand : Nat → Nat) (n : Nat)
    (fuel : Nat) (s : HarvestState) (h : lenInv s) :
    lenInv (scrape_loop page rand n fuel s) := by
  induction fuel generalizing s with
  | zero => exact h
  | succ f ih =>
    unfold scrape_loop
    split
    · exact ih _ (scrape_step_lenInv page rand n s h)
    · exact h

/-- Once the loop guard is false, the loop is stationary for any
remaining fuel. -/
theorem scrape_loop_stationary (page : Page) (rand : Nat → Nat) (n : Nat)
    (fuel : Nat) (s : HarvestState)
    (h : ¬(s.done = false ∧ s.tweets.length < n ∧
           s.scroll_count < max_scroll_attempts)) :
    scrape_loop page rand n fuel s = s := by
  cases fuel with
  | zero => rfl
  | succ f =>
    unfold scrape_loop
    simp only [h, if_false]

theorem updateCounters_snd_le (m no old : Nat) (h : old ≤ 7) :
    (updateCounters m no old).2 ≤ 8 := by
  unfold updateCounters
  split <;> simp only [] <;> omega

theorem scrape_step_post_consecInv (page : Page) (n tb iter : Nat)
    (sp : HarvestState) (hold : sp.consecutive_failed_scrolls ≤ 7) :
    consecInv (scrape_step_post page n tb iter sp) := by
  have hu := updateCounters_snd_le (sp.tweets.length - tb)
    sp.no_new_tweets_count sp.consecutive_failed_scrolls hold
  unfold scrape_step_post consecInv
  by_cases h1 : sp.tweets.length ≥ n
  · simp [h1]
    exact hu
  · by_cases h2 : (updateCounters (sp.tweets.length - tb) sp.no_new_tweets_count
        sp.consecutive_failed_scrolls).2 ≥ max_consecutive_failures
    · simp [h1, h2]
      exact hu
    · have hlt : (updateCounters (sp.tweets.length - tb) sp.no_new_tweets_count
          sp.consecutive_failed_scrolls).2 < 8 := by
        simpa [max_consecutive_failures] using h2
      by_cases h3 : (updateCounters (sp.tweets.length - tb) sp.no_new_tweets_count
          sp.consecutive_failed_scrolls).1 ≥ max_no_new_tweets
      · simp [h1, h2, h3]
        exact ⟨by omega, fun h8 => absurd h8 (by omega)⟩
      · simp [h1, h2, h3]
        exact ⟨by omega, fun h8 => absurd h8 (by omega)⟩

theorem scrape_step_consecInv (page : Page) (rand : Nat → Nat) (n : Nat)
    (s : HarvestState) (h : consecInv s) (hdone : s.done = false) :
    consecInv (scrape_step page rand n s) := by
  have hold : s.consecutive_failed_scrolls ≤ 7 := by
    rcases Nat.lt_or_ge s.consecutive_failed_scrolls 8 with hlt | hge
    · omega
    · rw [h.2 hge] at hdone
      cases hdone
  cases hf : page.feed (s.scroll_count + 1) with
  | none =>
    rw [scrape_step_eq_none page rand n s hf]
    refine ⟨h.1, fun h8 => ?_⟩
    rw [h.2 h8] at hdone
    cases hdone
  | some elems =>
    unfold scrape_step
    simp only [hf]
    have hsp : (processTweets rand n { s with scroll_count := s.scroll_count + 1 }
        elems).consecutive_failed_scrolls ≤ 7 := by
      rw [(processTweets_counters rand n elems _).2.1]
      exact hold
    exact scrape_step_post_consecInv page n _ _ _ hsp

theorem scrape_loop_budgetInv (page : Page) (rand : Nat → Nat) (n : Nat)
    (fuel : Nat) (s : HarvestState) (h : budgetInv s) :
    budgetInv (scrape_loop page rand n fuel s) := by
  induction fuel generalizing s with
  | zero => exact h
  | succ f ih =>
    unfold scrape_loop
    split
    · rename_i hg
      refine ih _ ⟨scrape_step_consecInv page rand n s h.1 hg.1, ?_⟩
      rw [scrape_step_scroll page rand n s]
      exact hg.2.2
    · exact h

theorem initState_budgetInv (page : Page) : budgetInv (initState page) := by
  refine ⟨⟨by simp [initState], fun h8 => ?_⟩, by simp [initState, max_scroll_attempts]⟩
  simp [initState] at h8

theorem scrape_loop_scroll_mono (page : Page) (rand : Nat → Nat) (n : Nat)
    (fuel : Nat) (s : HarvestState) :
    s.scroll_count ≤ (scrape_loop page rand n fuel s).scroll_count := by
  induction fuel generalizing s with
  | zero => exact Nat.le_refl _
  | succ f ih =>
    unfold scrape_loop
    split
    · refine Nat.le_trans ?_ (ih (scrape_step page rand n s))
      rw [scrape_step_scroll page rand n s]
      omega
    · exact Nat.le_refl _

theorem processTweet_eqInv (rand : Nat → Nat) (n : Nat)
    (s : HarvestState) (t : Tweet) (ht : t.text ≠ []) (h : eqInv s) :
    eqInv (processTweet rand n s t) := by
  unfold processTweet eqInv
  by_cases hd : s.done = true
  · simp [hd]
    exact h
  · by_cases hmem : (get_tweet_id rand s.entropy t).1 ∈ s.seen_tweets
    · simp [hd, hmem]
      exact h
    · by_cases htgt : n ≤ s.tweets.length + 1
      · simp [hd, hmem, ht, htgt]
        exact h
      · simp [hd, hmem, ht, htgt]
        exact h

theorem processTweets_eqInv (rand : Nat → Nat) (n : Nat)
    (elems : List Tweet) (s : HarvestState)
    (hts : ∀ t ∈ elems, t.text ≠ []) (h : eqInv s) :
    eqInv (processTweets rand n s elems) := by
  induction elems generalizing s with
  | nil => exact h
  | cons t ts ih =>
    simp only [processTweets, List.foldl_cons] at ih ⊢
    exact ih _ (fun u hu => hts u (List.mem_cons_of_mem t hu))
      (processTweet_eqInv rand n s t (hts t (List.mem_cons_self t ts)) h)

theorem scrape_step_eqInv (page : Page) (rand : Nat → Nat) (n : Nat)
    (s : HarvestState)
    (hfeed : ∀ elems, page.feed (s.scroll_count + 1) = some elems →
      ∀ t ∈ elems, t.text ≠ [])
    (h : eqInv s) : eqInv (scrape_step page rand n s) := by
  cases hf : page.feed (s.scroll_count + 1) with
  | none =>
    rw [scrape_step_eq_none page rand n s hf]
    exact h
  | some elems =>
    have hts := scrape_step_tweets_seen page rand n s elems hf
    have hp := processTweets_eqInv rand n elems
      { s with scroll_count := s.scroll_count + 1 } (hfeed elems hf) h
    unfold eqInv
    rw [hts.1, hts.2]
    exact hp

theorem scrape_loop_eqInv (page : Page) (rand : Nat → Nat) (n : Nat)
    (hpage : ∀ i elems, page.feed i = some elems → ∀ t ∈ elems, t.text ≠ [])
    (fuel : Nat) (s : HarvestState) (h : eqInv s) :
    eqInv (scrape_loop page rand n fuel s) := by
  induction fuel generalizing s with
  | zero => exact h
  | succ f ih =>
    unfold scrape_loop
    split
    · exact ih _ (scrape_step_eqInv page rand n s (fun elems hf => hpage _ elems hf) h)
    · exact h

/-! ### Randomness only enters through the last-resort identity -/

/-- An item with a stable identity (a status link or non-empty text)
resolves the same id under any entropy stream. -/
theorem get_tweet_id_stable (r1 r2 : Nat → Nat) (e : Nat) (t : Tweet)
    (h : t.sid ≠ none ∨ t.text ≠ []) :
    get_tweet_id r1 e t = get_tweet_id r2 e t := by
  unfold get_tweet_id
  cases hs : t.sid with
  | some i => rfl
  | none =>
    rcases h with h | h
    · exact absurd hs h
    · simp [h]

theorem processTweet_rand_eq (r1 r2 : Nat → Nat) (n : Nat)
    (s : HarvestState) (t : Tweet) (h : t.sid ≠ none ∨ t.text ≠ []) :
    processTweet r1 n s t = processTweet r2 n s t := by
  unfold processTweet
  rw [get_tweet_id_stable r1 r2 s.entropy t h]

theorem processTweets_rand_eq (r1 r2 : Nat → Nat) (n : Nat)
    (elems : List Tweet) (s : HarvestState)
    (h : ∀ t ∈ elems, t.sid ≠ none ∨ t.text ≠ []) :
    processTweets r1 n s elems = processTweets r2 n s elems := by
  induction elems generalizing s with
  | nil => rfl
  | cons t ts ih =>
    simp only [processTweets, List.foldl_cons] at ih ⊢
    rw [processTweet_rand_eq r1 r2 n s t (h t (List.mem_cons_self t ts))]
    exact ih _ (fun u hu => h u (List.mem_cons_of_mem t hu))

theorem scrape_step_rand_eq (page : Page) (r1 r2 : Nat → Nat) (n : Nat)
    (s : HarvestState)
    (h : ∀ elems, page.feed (s.scroll_count + 1) = some elems →
      ∀ t ∈ elems, t.sid ≠ none ∨ t.text ≠ []) :
    scrape_step page r1 n s = scrape_step page r2 n s := by
  cases hf : page.feed (s.scroll_count + 1) with
  | none =>
    rw [scrape_step_eq_none page r1 n s hf, scrape_step_eq_none page r2 n s hf]
  | some elems =>
    unfold scrape_step
    simp only [hf]
    rw [processTweets_rand_eq r1 r2 n elems _ (h elems hf)]

theorem scrape_loop_rand_eq (page : Page) (r1 r2 : Nat → Nat) (n : Nat)
    (hpage : ∀ i elems, page.feed i = some elems →
      ∀ t ∈ elems, t.sid ≠ none ∨ t.text ≠ [])
    (fuel : Nat) (s : HarvestState) :
    scrape_loop page r1 n fuel s = scrape_loop page r2 n fuel s := by
  induction fuel generalizing s with
  | zero => rfl
  | succ f ih =>
    unfold scrape_loop
    split
    · rw [scrape_step_rand_eq page r1 r2 n s (fun elems hf => hpage _ elems hf)]
      exact ih _
    · rfl

/-! ### String lemmas for the ProfileResolver claims -/

theorem dropWhile_append_cons_neg (P : Char → Bool) (xs : List Char)
    (d : Char) (ys : List Char) (hd : P d = false) :
    List.dropWhile P (xs ++ d :: ys) = List.dropWhile P xs ++ d :: ys := by
  induction xs with
  | nil => simp [List.dropWhile_cons, hd]
  | cons c xs' ih =>
    by_cases hc : P c = true
    · simp [List.dropWhile_cons, hc, ih]
    · simp [List.dropWhile_cons, hc]

/-- `strip` of a fixed block (non-space first and last character)
followed by arbitrary text only right-strips the text. -/
theorem pyStrip_block_append (c : Char) (mid : List Char) (d : Char)
    (p : List Char) (hc : isPySpace c = false) (hd : isPySpace d = false) :
    pyStrip ((c :: (mid ++ [d])) ++ p) = (c :: (mid ++ [d])) ++ pyRStrip p := by
  unfold pyStrip
  have h1 : pyLStrip ((c :: (mid ++ [d])) ++ p) = (c :: (mid ++ [d])) ++ p := by
    simp [pyLStrip, List.cons_append, List.dropWhile_cons, hc]
  rw [h1]
  unfold pyRStrip
  have h2 : ((c :: (mid ++ [d])) ++ p).reverse =
      p.reverse ++ (d :: (mid.reverse ++ [c])) := by
    simp [List.reverse_append, List.reverse_cons]
  rw [h2, dropWhile_append_cons_neg isPySpace p.reverse d (mid.reverse ++ [c]) hd]
  simp [List.reverse_append, List.reverse_cons]

/-- `replace('twitter.com', 'x.com')` on a string headed by the
`twitter.com/` host turns the host into `x.com/` and continues past
it. -/
theorem pyReplace_twitter_head (q : List Char) :
    pyReplace "twitter.com".toList "x.com".toList ("twitter.com/".toList ++ q) =
      "x.com/".toList ++ pyReplace "twitter.com".toList "x.com".toList q := by
  have h1 : "twitter.com/".toList ++ q = 't' :: ("witter.com/".toList ++ q) := rfl
  have hstart : pyStartsWith "twitter.com".toList
      ('t' :: ("witter.com/".toList ++ q)) = true :=
    pyStartsWith_append_of "twitter.com".toList "twitter.com/".toList q (by decide)
  rw [h1, pyReplace_cons_match "twitter.com".toList "x.com".toList 't'
    ("witter.com/".toList ++ q) (by decide) hstart]
  have h2 : ("witter.com/".toList ++ q).drop ("twitter.com".toList.length - 1) =
      '/' :: q := rfl
  have hslash : pyStartsWith "twitter.com".toList ('/' :: q) = false :=
    not_startsWith_of_mismatchWithin "twitter.com".toList ['/'] q (by decide)
  rw [h2, pyReplace_cons_no_match _ _ '/' q hslash]
  rfl

/-- The `twitter.com` protocol form resolves to the canonical
`x.com` address. -/
theorem get_profile_url_twitter_protocol (p : List Char) :
    get_profile_url ("https://twitter.com/".toList ++ p) true =
      "https://x.com/".toList ++
        pyReplace "twitter.com".toList "x.com".toList (pyRStrip p) := by
  have hstrip : pyStrip ("https://twitter.com/".toList ++ p) =
      "https://twitter.com/".toList ++ pyRStrip p := by
    have hb := pyStrip_block_append 'h' "ttps://twitter.com".toList '/' p
      (by decide) (by decide)
    have hshape : ('h' :: ("ttps://twitter.com".toList ++ ['/'])) =
        "https://twitter.com/".toList := by decide
    rw [hshape] at hb
    exact hb
  have hc1 : pyStartsWith "http://".toList
      ("https://twitter.com/".toList ++ pyRStrip p) = false :=
    not_startsWith_of_mismatchWithin _ "https://twitter.com/".toList _ (by decide)
  have hc2 : pyStartsWith "https://".toList
      ("https://twitter.com/".toList ++ pyRStrip p) = true := by
    have hs : "https://twitter.com/".toList ++ pyRStrip p =
        "https://".toList ++ ("twitter.com/".toList ++ pyRStrip p) := rfl
    rw [hs]
    exact pyStartsWith_self_append _ _
  unfold get_profile_url
  rw [if_pos rfl]
  rw [hstrip]
  rw [if_pos (Or.inr hc2)]
  have hs2 : "https://twitter.com/".toList ++ pyRStrip p =
      "https://".toList ++ ("twitter.com/".toList ++ pyRStrip p) := rfl
  rw [hs2, pyReplace_append_clean _ _ _ _ (by decide), pyReplace_twitter_head]
  rfl

/-- The `x.com` protocol form resolves to the same canonical
address. -/
theorem get_profile_url_x_protocol (p : List Char) :
    get_profile_url ("https://x.com/".toList ++ p) true =
      "https://x.com/".toList ++
        pyReplace "twitter.com".toList "x.com".toList (pyRStrip p) := by
  have hstrip : pyStrip ("https://x.com/".toList ++ p) =
      "https://x.com/".toList ++ pyRStrip p := by
    have hb := pyStrip_block_append 'h' "ttps://x.com".toList '/' p
      (by decide) (by decide)
    have hshape : ('h' :: ("ttps://x.com".toList ++ ['/'])) =
        "https://x.com/".toList := by decide
    rw [hshape] at hb
    exact hb
  have hc2 : pyStartsWith "https://".toList
      ("https://x.com/".toList ++ pyRStrip p) = true := by
    have hs : "https://x.com/".toList ++ pyRStrip p =
        "https://".toList ++ ("x.com/".toList ++ pyRStrip p) := rfl
    rw [hs]
    exact pyStartsWith_self_append _ _
  unfold get_profile_url
  rw [if_pos rfl]
  rw [hstrip]
  rw [if_pos (Or.inr hc2)]
  exact pyReplace_append_clean _ _ _ _ (by decide)

/-- The bare (protocol-less) `twitter.com` form resolves to the same
canonical address. -/
theorem get_profile_url_twitter_bare (p : List Char) :
    get_profile_url ("twitter.com/".toList ++ p) true =
      "https://x.com/".toList ++
        pyReplace "twitter.com".toList "x.com".toList (pyRStrip p) := by
  have hstrip : pyStrip ("twitter.com/".toList ++ p) =
      "twitter.com/".toList ++ pyRStrip p := by
    have hb := pyStrip_block_append 't' "witter.com".toList '/' p
      (by decide) (by decide)
    have hshape : ('t' :: ("witter.com".toList ++ ['/'])) =
        "twitter.com/".toList := by decide
    rw [hshape] at hb
    exact hb
  have hc1 : pyStartsWith "http://".toList
      ("twitter.com/".toList ++ pyRStrip p) = false :=
    not_startsWith_of_mismatchWithin _ "twitter.com/".toList _ (by decide)
  have hc2 : pyStartsWith "https://".toList
      ("twitter.com/".toList ++ pyRStrip p) = false :=
    not_startsWith_of_mismatchWithin _ "twitter.com/".toList _ (by decide)
  have hc3 : pyStartsWith "twitter.com/".toList
      ("twitter.com/".toList ++ pyRStrip p) = true :=
    pyStartsWith_self_append _ _
  unfold get_profile_url
  rw [if_pos rfl]
  rw [hstrip]
  rw [if_neg (by simp [hc1, hc2])]
  rw [if_pos (Or.inr hc3)]
  rw [pyReplace_twitter_head]
  rfl

/-- The bare `x.com` form resolves to the same canonical address. -/
theorem get_profile_url_x_bare (p : List Char) :
    get_profile_url ("x.com/".toList ++ p) true =
      "https://x.com/".toList ++
        pyReplace "twitter.com".toList "x.com".toList (pyRStrip p) := by
  have hstrip : pyStrip ("x.com/".toList ++ p) =
      "x.com/".toList ++ pyRStrip p := by
    have hb := pyStrip_block_append 'x' ".com".toList '/' p
      (by decide) (by decide)
    have hshape : ('x' :: (".com".toList ++ ['/'])) = "x.com/".toList := by decide
    rw [hshape] at hb
    exact hb
  have hc1 : pyStartsWith "http://".toList
      ("x.com/".toList ++ pyRStrip p) = false :=
    not_startsWith_of_mismatchWithin _ "x.com/".toList _ (by decide)
  have hc2 : pyStartsWith "https://".toList
      ("x.com/".toList ++ pyRStrip p) = false :=
    not_startsWith_of_mismatchWithin _ "x.com/".toList _ (by decide)
  have hc3 : pyStartsWith "x.com/".toList
      ("x.com/".toList ++ pyRStrip p) = true :=
    pyStartsWith_self_append _ _
  unfold get_profile_url
  rw [if_pos rfl]
  rw [hstrip]
  rw [if_neg (by simp [hc1, hc2])]
  rw [if_pos (Or.inl hc3)]
  rw [pyReplace_append_clean _ _ _ _ (by decide)]
  rfl

/-- `replace` is the identity on a string in which the needle never
starts. -/
theorem pyReplace_clean_id (n r s : List Char)
    (h : cleanForReplace n s = true) : pyReplace n r s = s := by
  induction s with
  | nil => rw [pyReplace]
  | cons c rest ih =>
    simp only [cleanForReplace, Bool.and_eq_true] at h
    have hns : pyStartsWith n (c :: rest) = false := by
      have := not_startsWith_of_mismatchWithin n (c :: rest) [] h.1
      rwa [List.append_nil] at this
    rw [pyReplace_cons_no_match n r c rest hns, ih h.2]

theorem pyContains_cons_false (n : List Char) (c : Char) (rest : List Char)
    (h : pyContains n (c :: rest) = false) : pyContains n rest = false := by
  unfold pyContains at h
  cases hb : pyContains n rest
  · rfl
  · rw [hb] at h
    simp at h

theorem pyContains_head_false (n : List Char) (c : Char) (rest : List Char)
    (h : pyContains n (c :: rest) = false) :
    pyStartsWith n (c :: rest) = false := by
  unfold pyContains at h
  cases hb : pyStartsWith n (c :: rest)
  · rfl
  · rw [hb] at h
    simp at h

theorem pyContains_strip_false (n s : List Char)
    (h : pyContains n s = false) : pyContains n (pyStrip s) = false := by
  cases hb : pyContains n (pyStrip s)
  · rfl
  · rw [pyContains_of_strip n s hb] at h
    cases h

theorem pyStartsWith_false_of_contains_false (n s : List Char)
    (h : pyContains n s = false) : pyStartsWith n s = false := by
  cases hb : pyStartsWith n s
  · rfl
  · rw [pyContains_of_startsWith n s hb] at h
    cases h

/-- A successful regex attempt at some position forces one of the two
host substrings to occur in the input: every alternative of the
pattern ends in `twitter.com/` or `x.com/`. -/
theorem matchUserAt_some_contains (s : List Char) (h : matchUserAt s ≠ none) :
    pyContains "twitter.com/".toList s = true ∨
    pyContains "x.com/".toList s = true := by
  unfold matchUserAt at h
  cases hfind : usernamePatterns.find? (fun c => pyStartsWith c s) with
  | none =>
    rw [hfind] at h
    simp at h
  | some c =>
    have hps : pyStartsWith c s = true := by
      have := List.find?_some hfind
      simpa using this
    have hmem : c ∈ usernamePatterns := List.mem_of_find?_eq_some hfind
    simp only [usernamePatterns, List.mem_cons, List.not_mem_nil, or_false] at hmem
    rcases hmem with rfl | rfl | rfl | rfl | rfl | rfl | rfl | rfl | rfl | rfl | rfl | rfl
    · exact Or.inl (pyContains_of_startsWith_append "https://www.".toList
        "twitter.com/".toList s hps)
    · exact Or.inr (pyContains_of_startsWith_append "https://www.".toList
        "x.com/".toList s hps)
    · exact Or.inl (pyContains_of_startsWith_append "https://".toList
        "twitter.com/".toList s hps)
    · exact Or.inr (pyContains_of_startsWith_append "https://".toList
        "x.com/".toList s hps)
    · exact Or.inl (pyContains_of_startsWith_append "http://www.".toList
        "twitter.com/".toList s hps)
    · exact Or.inr (pyContains_of_startsWith_append "http://www.".toList
        "x.com/".toList s hps)
    · exact Or.inl (pyContains_of_startsWith_append "http://".toList
        "twitter.com/".toList s hps)
    · exact Or.inr (pyContains_of_startsWith_append "http://".toList
        "x.com/".toList s hps)
    · exact Or.inl (pyContains_of_startsWith_append "www.".toList
        "twitter.com/".toList s hps)
    · exact Or.inr (pyContains_of_startsWith_append "www.".toList
        "x.com/".toList s hps)
    · exact Or.inl (pyContains_of_startsWith_append "".toList
        "twitter.com/".toList s hps)
    · exact Or.inr (pyContains_of_startsWith_append "".toList
        "x.com/".toList s hps)

/-- When neither host substring occurs, the username regex finds no
match anywhere in the input. -/
theorem reSearchUsername_none (s : List Char)
    (h1 : pyContains "twitter.com/".toList s = false)
    (h2 : pyContains "x.com/".toList s = false) :
    reSearchUsername s = none := by
  induction s with
  | nil => rfl
  | cons c rest ih =>
    unfold reSearchUsername
    have hm : matchUserAt (c :: rest) = none := by
      by_contra hne
      rcases matchUserAt_some_contains (c :: rest) hne with hcv | hcv
      · rw [h1] at hcv
        cases hcv
      · rw [h2] at hcv
        cases hcv
    rw [hm]
    exact ih (pyContains_cons_false _ c rest h1) (pyContains_cons_false _ c rest h2)

/-- When neither host substring occurs, `extract_username_from_url`
returns its input unchanged. -/
theorem extract_username_from_url_id (s : List Char)
    (h1 : pyContains "twitter.com/".toList s = false)
    (h2 : pyContains "x.com/".toList s = false) :
    extract_username_from_url s = s := by
  unfold extract_username_from_url
  rw [reSearchUsername_none s h1 h2]

/-! ### The claims -/

/-- Claim C1, counterexample: the dedup invariant
`len(collected) == len(seen)` fails on the code.  On a page whose
single item has a stable id but empty extracted text, after one loop
iteration the seen set has one identity while the collection is still
empty, so the two sizes differ at that observation point. -/
theorem C1_dedup_equality_counterexample :
    ¬ ((scrape_loop pageEmptyText rand0 10 1 (initState pageEmptyText)).tweets.length =
       (scrape_loop pageEmptyText rand0 10 1 (initState pageEmptyText)).seen_tweets.length) := by
  decide

/-- Claim C1, amended: at every checkpoint of every session,
`len(collected) ≤ len(seen)` and no identity appears twice in the seen
set (each collected item is appended in the same step as one fresh
identity, so no identity yields two items); the equality
`len(collected) == len(seen)` holds under the additional assumption
that every rendered item has non-empty extracted text. -/
theorem C1_dedup_invariant_amended :
    ∀ (page : Page) (rand : Nat → Nat) (n k : Nat),
    ((scrape_loop page rand n k (initState page)).tweets.length ≤
       (scrape_loop page rand n k (initState page)).seen_tweets.length ∧
     (scrape_loop page rand n k (initState page)).seen_tweets.Nodup) ∧
    ((∀ i elems, page.feed i = some elems → ∀ t ∈ elems, t.text ≠ []) →
      (scrape_loop page rand n k (initState page)).tweets.length =
        (scrape_loop page rand n k (initState page)).seen_tweets.length) := by
  intro page rand n k
  constructor
  · exact scrape_loop_lenInv page rand n k (initState page)
      (by constructor <;> simp [initState])
  · intro hpage
    exact scrape_loop_eqInv page rand n hpage k (initState page)
      (by simp [eqInv, initState])

/-- Witness for the amended claim C1 at a concrete page whose items
all carry non-empty text: the two sizes agree at checkpoint 4. -/
theorem C1_dedup_invariant_amended_witness :
    (scrape_loop pageOneItem rand0 3 4 (initState pageOneItem)).tweets.length =
      (scrape_loop pageOneItem rand0 3 4 (initState pageOneItem)).seen_tweets.length := by
  refine (C1_dedup_invariant_amended pageOneItem rand0 3 4).2 ?_
  intro i elems hf t htm
  have he : elems = [⟨some "1".toList, "a".toList⟩] := (Option.some.inj hf).symm
  subst he
  simp only [List.mem_singleton] at htm
  subst htm
  decide

/-- Claim C2: `scrape_tweets` returns at most `num_tweets` items; the
loop never exceeds 50 scroll iterations; from any checkpoint at which
`consecutive_failed_scrolls` has reached 8 or `scroll_count` has
reached 50 the loop is already stopped (running it further changes
nothing); and on an accessible page with initial tweets the call
returns `some` of what was collected so far (truncated to the target),
a successful partial result rather than an error. -/
theorem C2_bounded_termination :
    ∀ (page : Page) (rand : Nat → Nat) (n : Nat),
    (∀ l, scrape_tweets page rand n = some l → l.length ≤ n) ∧
    (∀ k, (scrape_loop page rand n k (initState page)).scroll_count ≤
       max_scroll_attempts) ∧
    (∀ k f,
      8 ≤ (scrape_loop page rand n k (initState page)).consecutive_failed_scrolls ∨
      50 ≤ (scrape_loop page rand n k (initState page)).scroll_count →
      scrape_loop page rand n f (scrape_loop page rand n k (initState page)) =
        scrape_loop page rand n k (initState page)) ∧
    (page.isPrivate = false → page.hasInitialTweet = true →
      scrape_tweets page rand n =
        some ((scrape_loop page rand n max_scroll_attempts
          (initState page)).tweets.take n)) := by
  intro page rand n
  refine ⟨?_, ?_, ?_, ?_⟩
  · intro l hl
    unfold scrape_tweets scrape_tweets_run at hl
    by_cases hp : page.isPrivate = true
    · simp [hp] at hl
    · by_cases hi : page.hasInitialTweet = false
      · simp [hp, hi] at hl
        subst hl
        simp
      · simp [hp, hi] at hl
        subst hl
        exact List.length_take_le n _
  · intro k
    exact (scrape_loop_budgetInv page rand n k (initState page)
      (initState_budgetInv page)).2
  · intro k f h
    have hb := scrape_loop_budgetInv page rand n k (initState page)
      (initState_budgetInv page)
    apply scrape_loop_stationary
    intro hg
    rcases h with h8 | h50
    · rw [hb.1.2 h8] at hg
      cases hg.1
    · have := hg.2.2
      unfold max_scroll_attempts at this
      omega
  · intro hp hi
    unfold scrape_tweets scrape_tweets_run
    simp [hp, hi]

/-- Witness for claim C2 at the always-stalling page: the loop is
stationary after the checkpoint at which the stall counter has hit 8,
the call returns the (empty) partial collection as a success, and the
returned list is within the target bound. -/
theorem C2_bounded_termination_witness :
    scrape_loop pageStall rand0 5 3 (scrape_loop pageStall rand0 5 9 (initState pageStall)) =
      scrape_loop pageStall rand0 5 9 (initState pageStall) ∧
    scrape_tweets pageStall rand0 5 =
      some ((scrape_loop pageStall rand0 5 max_scroll_attempts
        (initState pageStall)).tweets.take 5) ∧
    ([] : List (List Char)).length ≤ 5 := by
  refine ⟨(C2_bounded_termination pageStall rand0 5).2.2.1 9 3 (Or.inl (by decide)),
    (C2_bounded_termination pageStall rand0 5).2.2.2 rfl rfl,
    (C2_bounded_termination pageStall rand0 5).1 [] (by decide)⟩

/-- Claim C3: when the privacy marker is observed after navigation,
`scrape_tweets` returns the Private sentinel `None` having performed
zero loop iterations and collected zero items. -/
theorem C3_private_short_circuit :
    ∀ (page : Page) (rand : Nat → Nat) (n : Nat),
    page.isPrivate = true →
    scrape_tweets_run page rand n = ⟨none, 0, 0⟩ := by
  intro page rand n hp
  unfold scrape_tweets_run
  simp [hp]

/-- Witness for claim C3 on a concrete private profile. -/
theorem C3_private_short_circuit_witness :
    scrape_tweets_run pagePrivate rand0 5 = ⟨none, 0, 0⟩ :=
  C3_private_short_circuit pagePrivate rand0 5 rfl

/-- Claim C4, counterexample: "never raises an exception out of the
harvest call" is false of the code.  When navigation itself fails or
times out, `driver.get` raises: at source line 164 no handler exists
anywhere in `scrape_tweets`, and at line 350 the call sits outside
`scrape_profile_info`'s `try`, so on the concrete raising navigations
below both calls propagate the exception to their caller instead of
surfacing NotFound or an empty result. -/
theorem C4_navigation_raises_counterexample :
    scrape_tweets_call (.raises .timeout) rand0 5 =
      .error DriverError.timeout ∧
    scrape_profile_info_call "user".toList false (.raises .webdriver) =
      .error DriverError.webdriver :=
  ⟨rfl, rfl⟩

/-- Claim C4, amended: when navigation *returns* but nothing renders —
no privacy marker and no content marker, so both marker waits time out
— `scrape_tweets` returns the empty collection and
`scrape_profile_info` returns the NotFound sentinel `None`, and on
this path no exception escapes either call; but when `driver.get`
itself raises on a failed or timed-out navigation, the exception
propagates uncaught out of both calls (line 164 is unhandled, line 350
sits outside the `try`). -/
theorem C4_navigation_failure_amended :
    ∀ (page : Page) (rand : Nat → Nat) (n : Nat)
      (ident : List Char) (isu : Bool) (pp : ProfilePage) (e : DriverError),
    (page.isPrivate = false → page.hasInitialTweet = false →
      scrape_tweets_call (.loaded page) rand n = .ok ⟨some [], 0, 0⟩) ∧
    (pp.primaryColumnLoads = false →
      scrape_profile_info_call ident isu (.loaded pp) = .ok none) ∧
    scrape_tweets_call (.raises e) rand n = .error e ∧
    scrape_profile_info_call ident isu (.raises e) = .error e := by
  intro page rand n ident isu pp e
  refine ⟨?_, ?_, rfl, rfl⟩
  · intro hp hi
    unfold scrape_tweets_call scrape_tweets_run
    simp [hp, hi]
  · intro hl
    unfold scrape_profile_info_call scrape_profile_info
    simp [hl]

/-- Witness for the amended claim C4: a concrete navigation that loads
nothing yields the empty result and the NotFound sentinel, and a
concrete raising navigation propagates its exception. -/
theorem C4_navigation_failure_amended_witness :
    scrape_tweets_call (.loaded pageNoMarkers) rand0 5 = .ok ⟨some [], 0, 0⟩ ∧
    scrape_profile_info_call "user".toList false
      (.loaded ⟨false, false, none, none, none, none⟩) = .ok none ∧
    scrape_tweets_call (.raises .timeout) rand0 5 =
      .error DriverError.timeout :=
  ⟨(C4_navigation_failure_amended pageNoMarkers rand0 5 "user".toList false
      ⟨false, false, none, none, none, none⟩ .timeout).1 rfl rfl,
   (C4_navigation_failure_amended pageNoMarkers rand0 5 "user".toList false
      ⟨false, false, none, none, none, none⟩ .timeout).2.1 rfl,
   (C4_navigation_failure_amended pageNoMarkers rand0 5 "user".toList false
      ⟨false, false, none, none, none, none⟩ .timeout).2.2.1⟩

/-- Claim C5, counterexample: `consecutive_failed_scrolls` is not
monotonically non-decreasing within a session.  On a page that stalls
on iteration 1 and yields a fresh item on iteration 2, the counter is
1 at checkpoint 1 and back to 0 at checkpoint 2 — a mid-session reset
(source line 268). -/
theorem C5_stall_counter_not_monotone_counterexample :
    (scrape_loop pageLateItem rand0 10 1 (initState pageLateItem)).consecutive_failed_scrolls = 1 ∧
    (scrape_loop pageLateItem rand0 10 2 (initState pageLateItem)).consecutive_failed_scrolls = 0 := by
  decide

/-- Claim C5, amended: `scroll_attempts` (`scroll_count`) is
monotonically non-decreasing across every loop iteration and is reset
only at session creation; `consecutive_failed_scrolls`, by contrast,
is reset to zero by every productive iteration (the counter update on
a positive `new_tweets_count`), not only at session creation. -/
theorem C5_counter_monotonicity_amended :
    ∀ (page : Page) (rand : Nat → Nat) (n fuel : Nat) (s : HarvestState),
    s.scroll_count ≤ (scrape_loop page rand n fuel s).scroll_count ∧
    (∀ m no c, updateCounters (m + 1) no c = (0, 0)) := by
  intro page rand n fuel s
  refine ⟨scrape_loop_scroll_mono page rand n fuel s, ?_⟩
  intro m no c
  simp [updateCounters]

/-- Claim C7: the counter update step of the scan iteration.  A zero
`new_tweets_count` increments both `no_new_tweets_count` and
`consecutive_failed_scrolls` by one; a positive count resets both to
zero; the update step changes nothing else. -/
theorem C7_counter_update_rule :
    (∀ no c, updateCounters 0 no c = (no + 1, c + 1)) ∧
    (∀ m no c, updateCounters (m + 1) no c = (0, 0)) := by
  constructor <;> intro _ _ <;> intros <;> simp [updateCounters]

/-- Claim C9: determinism modulo jitter.  Against a deterministic
driver oracle in which every rendered item resolves a stable identity
(a status-link id or non-empty text, so the random last-resort key is
never drawn), two sessions with arbitrary, possibly different entropy
streams produce identical results — same ordered list, same iteration
count, same transient collection size. -/
theorem C9_determinism_modulo_jitter :
    ∀ (page : Page) (n : Nat) (r1 r2 : Nat → Nat),
    (∀ i elems, page.feed i = some elems →
      ∀ t ∈ elems, t.sid ≠ none ∨ t.text ≠ []) →
    scrape_tweets_run page r1 n = scrape_tweets_run page r2 n := by
  intro page n r1 r2 hpage
  unfold scrape_tweets_run
  by_cases hp : page.isPrivate = true
  · simp [hp]
  · by_cases hi : page.hasInitialTweet = false
    · simp [hp, hi]
    · simp only [hp, hi, if_false, Bool.false_eq_true]
      rw [scrape_loop_rand_eq page r1 r2 n hpage max_scroll_attempts (initState page)]

/-- Witness for claim C9: two concrete distinct entropy streams give
the same run on a stable-identity feed. -/
theorem C9_determinism_modulo_jitter_witness :
    scrape_tweets_run pageOneItem (fun k => k) 3 =
      scrape_tweets_run pageOneItem (fun k => k + 7) 3 := by
  refine C9_determinism_modulo_jitter pageOneItem 3 (fun k => k) (fun k => k + 7) ?_
  intro i elems hf t htm
  have he : elems = [⟨some "1".toList, "a".toList⟩] := (Option.some.inj hf).symm
  subst he
  simp only [List.mem_singleton] at htm
  subst htm
  exact Or.inl (by decide)

/-- Claim C6, counterexample: `get_profile_url` does not strip query
parameters.  On the URL `https://x.com/user?ref=1` it returns the
input unchanged, query string included (the only query stripping in
the source lives in `extract_username_from_url`, which the URL branch
never reaches). -/
theorem C6_query_not_stripped_counterexample :
    get_profile_url "https://x.com/user?ref=1".toList true =
      "https://x.com/user?ref=1".toList ∧
    pyContains "?ref=1".toList
      (get_profile_url "https://x.com/user?ref=1".toList true) = true := by
  have hsplit : "https://x.com/user?ref=1".toList =
      "https://x.com/".toList ++ "user?ref=1".toList := rfl
  have hrs : pyRStrip "user?ref=1".toList = "user?ref=1".toList := by decide
  have hclean : pyReplace "twitter.com".toList "x.com".toList
      "user?ref=1".toList = "user?ref=1".toList :=
    pyReplace_clean_id _ _ _ (by decide)
  constructor
  · rw [hsplit, get_profile_url_x_protocol, hrs, hclean]
  · rw [hsplit, get_profile_url_x_protocol, hrs, hclean]
    decide

/-- Claim C6, amended: `get_profile_url` never fails and always
returns a fully-qualified (`http://` or `https://`) address; a bare
handle is stripped of its leading mention markers and canonicalised;
and on an unrecognized shape (no host substring, no protocol prefix)
it degrades to building the canonical address directly from the raw
identifier.  Query parameters, however, are preserved, not
stripped. -/
theorem C6_profile_resolver_amended :
    ∀ (identifier : List Char) (is_url : Bool),
    (pyStartsWith "http://".toList (get_profile_url identifier is_url) = true ∨
     pyStartsWith "https://".toList (get_profile_url identifier is_url) = true) ∧
    (get_profile_url identifier false =
      "https://x.com/".toList ++ pyLStripChar '@' (pyStrip identifier)) ∧
    (pyContains "twitter.com/".toList identifier = false →
     pyContains "x.com/".toList identifier = false →
     pyStartsWith "http://".toList (pyStrip identifier) = false →
     pyStartsWith "https://".toList (pyStrip identifier) = false →
     get_profile_url identifier true = "https://x.com/".toList ++ identifier) := by
  intro ident isu
  refine ⟨?_, rfl, ?_⟩
  · cases isu with
    | false =>
      refine Or.inr ?_
      show pyStartsWith "https://".toList
        ("https://x.com/".toList ++ pyLStripChar '@' (pyStrip ident)) = true
      exact pyStartsWith_self_append "https://".toList
        ("x.com/".toList ++ pyLStripChar '@' (pyStrip ident))
    | true =>
      by_cases hb1 : pyStartsWith "http://".toList (pyStrip ident) = true ∨
          pyStartsWith "https://".toList (pyStrip ident) = true
      · have hres : get_profile_url ident true =
            pyReplace "twitter.com".toList "x.com".toList (pyStrip ident) := by
          unfold get_profile_url
          rw [if_pos rfl, if_pos hb1]
        rcases hb1 with hb | hb
        · obtain ⟨r, hr⟩ := pyStartsWith_decomp _ _ hb
          refine Or.inl ?_
          rw [hres, hr, pyReplace_append_clean _ _ _ _ (by decide)]
          exact pyStartsWith_self_append _ _
        · obtain ⟨r, hr⟩ := pyStartsWith_decomp _ _ hb
          refine Or.inr ?_
          rw [hres, hr, pyReplace_append_clean _ _ _ _ (by decide)]
          exact pyStartsWith_self_append _ _
      · by_cases hb2 : pyStartsWith "x.com/".toList (pyStrip ident) = true ∨
            pyStartsWith "twitter.com/".toList (pyStrip ident) = true
        · have hres : get_profile_url ident true = "https://".toList ++
              pyReplace "twitter.com".toList "x.com".toList (pyStrip ident) := by
            unfold get_profile_url
            rw [if_pos rfl, if_neg hb1, if_pos hb2]
          refine Or.inr ?_
          rw [hres]
          exact pyStartsWith_self_append _ _
        · by_cases hb3 : pyContains "x.com/".toList (pyStrip ident) = true ∨
              pyContains "twitter.com/".toList (pyStrip ident) = true
          · have hcond : ¬ pyStartsWith "https://".toList (pyStrip ident) = true ∧
                ¬ pyStartsWith "http://".toList (pyStrip ident) = true :=
              ⟨fun hx => hb1 (Or.inr hx), fun hx => hb1 (Or.inl hx)⟩
            have hres : get_profile_url ident true = "https://".toList ++
                pyReplace "twitter.com".toList "x.com".toList (pyStrip ident) := by
              unfold get_profile_url
              rw [if_pos rfl, if_neg hb1, if_neg hb2, if_pos hb3, if_pos hcond]
            refine Or.inr ?_
            rw [hres]
            exact pyStartsWith_self_append _ _
          · have hres : get_profile_url ident true =
                "https://x.com/".toList ++ extract_username_from_url ident := by
              unfold get_profile_url
              rw [if_pos rfl, if_neg hb1, if_neg hb2, if_neg hb3]
            refine Or.inr ?_
            rw [hres]
            exact pyStartsWith_self_append "https://".toList
              ("x.com/".toList ++ extract_username_from_url ident)
  · intro h1 h2 h3 h4
    have h1s : pyContains "twitter.com/".toList (pyStrip ident) = false :=
      pyContains_strip_false _ _ h1
    have h2s : pyContains "x.com/".toList (pyStrip ident) = false :=
      pyContains_strip_false _ _ h2
    have hb1 : ¬ (pyStartsWith "http://".toList (pyStrip ident) = true ∨
        pyStartsWith "https://".toList (pyStrip ident) = true) := by
      rintro (hx | hx)
      · rw [h3] at hx
        cases hx
      · rw [h4] at hx
        cases hx
    have hb2 : ¬ (pyStartsWith "x.com/".toList (pyStrip ident) = true ∨
        pyStartsWith "twitter.com/".toList (pyStrip ident) = true) := by
      rintro (hx | hx)
      · rw [pyStartsWith_false_of_contains_false _ _ h2s] at hx
        cases hx
      · rw [pyStartsWith_false_of_contains_false _ _ h1s] at hx
        cases hx
    have hb3 : ¬ (pyContains "x.com/".toList (pyStrip ident) = true ∨
        pyContains "twitter.com/".toList (pyStrip ident) = true) := by
      rintro (hx | hx)
      · rw [h2s] at hx
        cases hx
      · rw [h1s] at hx
        cases hx
    unfold get_profile_url
    rw [if_pos rfl, if_neg hb1, if_neg hb2, if_neg hb3,
      extract_username_from_url_id ident h1 h2]

/-- Witness for the amended claim C6 at concrete inputs: a plain
username via the URL path degrades to the canonical address built from
the raw input, a mention-marked handle is stripped, and the output is
fully qualified. -/
theorem C6_profile_resolver_amended_witness :
    (pyStartsWith "http://".toList (get_profile_url "someuser".toList true) = true ∨
     pyStartsWith "https://".toList (get_profile_url "someuser".toList true) = true) ∧
    get_profile_url "@handle".toList false =
      "https://x.com/".toList ++ pyLStripChar '@' (pyStrip "@handle".toList) ∧
    get_profile_url "someuser".toList true =
      "https://x.com/".toList ++ "someuser".toList := by
  refine ⟨(C6_profile_resolver_amended "someuser".toList true).1,
    (C6_profile_resolver_amended "@handle".toList false).2.1,
    (C6_profile_resolver_amended "someuser".toList true).2.2
      (by decide) (by decide) (by decide) (by decide)⟩

/-- Claim C8: the two accepted host forms are interchangeable.  For
every profile path `p`, `get_profile_url` maps the `twitter.com` form
and the `x.com` form of the same URL — with or without protocol — to
the same canonical address, and that address is on the preferred
`x.com` domain. -/
theorem C8_domain_form_equivalence :
    ∀ p : List Char,
    (get_profile_url ("https://twitter.com/".toList ++ p) true =
       get_profile_url ("https://x.com/".toList ++ p) true) ∧
    pyStartsWith "https://x.com/".toList
      (get_profile_url ("https://twitter.com/".toList ++ p) true) = true ∧
    (get_profile_url ("twitter.com/".toList ++ p) true =
       get_profile_url ("x.com/".toList ++ p) true) := by
  intro p
  refine ⟨?_, ?_, ?_⟩
  · rw [get_profile_url_twitter_protocol p, get_profile_url_x_protocol p]
  · rw [get_profile_url_twitter_protocol p]
    exact pyStartsWith_self_append _ _
  · rw [get_profile_url_twitter_bare p, get_profile_url_x_bare p]

/-- Claim C10: at every checkpoint of every session
`len(seen) ≥ len(collected)`, and the inequality can be strict: on a
page whose single stable item first renders with empty text, the
identity is marked seen without an append, and even though the same
identity later re-renders with non-empty text it is never collected —
the final run ends with one seen identity, zero collected items, and
result `some []`. -/
theorem C10_seen_dominates_collected :
    (∀ (page : Page) (rand : Nat → Nat) (n k : Nat),
      (scrape_loop page rand n k (initState page)).tweets.length ≤
        (scrape_loop page rand n k (initState page)).seen_tweets.length) ∧
    ((scrape_loop pageTextAppearsLate rand0 10 max_scroll_attempts
        (initState pageTextAppearsLate)).tweets.length = 0 ∧
     (scrape_loop pageTextAppearsLate rand0 10 max_scroll_attempts
        (initState pageTextAppearsLate)).seen_tweets = ["1".toList] ∧
     scrape_tweets pageTextAppearsLate rand0 10 = some []) := by
  constructor
  · intro page rand n k
    exact (scrape_loop_lenInv page rand n k (initState page)
      (by constructor <;> simp [initState])).1
  · refine ⟨?_, ?_, ?_⟩ <;> decide

end PersonaInsight
